import Mathlib

/-!
Shallow embedding of the object-model core of the ng262 runtime
(crate `evaluator`): language values, property descriptors, the ordinary
object internal methods, and the numeric-index classification, translated
from the Rust sources in `src/evaluator/src`.

Conventions of the embedding:
* `JsObject` handles (Rust `Rc<RefCell<Inner>>` with pointer equality) are
  modelled as natural-number object ids addressing records in a `Heap`
  association list; pointer equality becomes id equality.
* Rust `Result<T, Value>` together with the possibility of a Rust `panic!`
  (from `panic!`, `assert!`, `Option::unwrap`, `todo!`) is modelled by
  `RunResult`.  The extra constructors `diverged` (a loop cut off by a fuel
  bound) and `unmodeled` (an input outside the exactly-modelled fragment of
  IEEE-754 parsing/printing, see `F64`) keep the embedding total and honest.
* `f64` is modelled by `F64`, which covers exactly the double values this
  development ever produces: NaN, the two infinities, and integer-valued
  doubles written `F64.int sign magnitude` (signed zero included).  Decimal
  parsing (`str::parse::<f64>`) and printing (`format!`) are exact on
  integer literals of magnitude below 2^53; anything else is `unmodeled`.
-/

/-- Model of the Rust `f64` restricted to the values this development
produces: `nan`, signed infinities, and integer-valued doubles
`int neg mag` denoting the double of value `(-1)^neg * mag` (so `int true 0`
is IEEE −0.0 and `int false 0` is +0.0).  Magnitudes below 2^53 are exactly
representable, which is the fragment the parsing/printing model commits to. -/
inductive F64 where
  | nan : F64
  | inf : Bool → F64
  | int : Bool → Nat → F64
deriving DecidableEq

namespace F64

/-- Numeric value of a finite `F64` as an integer (signed zeros collapse). -/
def toInt : F64 → Int
  | .nan => 0
  | .inf _ => 0
  | .int neg m => if neg then -(m : Int) else (m : Int)

/-- Rust `f64::is_nan`. -/
def is_nan : F64 → Bool
  | .nan => true
  | _ => false

/-- Rust `f64::is_infinite`. -/
def is_infinite : F64 → Bool
  | .inf _ => true
  | _ => false

/-- Rust `f64::is_sign_positive`: true for +0.0, positive finites, +∞ and
(the f64 constants used here) positive NaN. -/
def is_sign_positive : F64 → Bool
  | .nan => true
  | .inf neg => !neg
  | .int neg _ => !neg

/-- IEEE-754 `==` on doubles: NaN compares unequal to everything, and the
two zeros compare equal. -/
def beq : F64 → F64 → Bool
  | .nan, _ => false
  | _, .nan => false
  | .inf n1, .inf n2 => n1 == n2
  | .inf _, .int _ _ => false
  | .int _ _, .inf _ => false
  | .int n1 m1, .int n2 m2 => toInt (.int n1 m1) == toInt (.int n2 m2)

/-- IEEE-754 `<` on doubles: false whenever NaN is involved; −∞ below every
finite, finites below +∞; finites by numeric value (zeros equal). -/
def blt : F64 → F64 → Bool
  | .nan, _ => false
  | _, .nan => false
  | .inf n1, .inf n2 => n1 && !n2
  | .inf n1, .int _ _ => n1
  | .int _ _, .inf n2 => !n2
  | .int n1 m1, .int n2 m2 => toInt (.int n1 m1) < toInt (.int n2 m2)

/-- Rust `f64::signum`: NaN for NaN, otherwise ±1.0 by sign bit (so
signum of −0.0 is −1.0 and of +0.0 is +1.0). -/
def signum : F64 → F64
  | .nan => .nan
  | .inf neg => .int neg 1
  | .int neg _ => .int neg 1

/-- Rust unary negation on `f64` (flips the sign bit). -/
def neg : F64 → F64
  | .nan => .nan
  | .inf n => .inf (!n)
  | .int n m => .int (!n) m

end F64

/-- The double constant `9007199254740991.0` (2^53 − 1) from
`is_integer_index`. -/
def maxIntegerIndexBound : F64 := .int false 9007199254740991

/-- The double constant `2_f64.powi(32) - 1.0` = `4294967295.0` from
`is_array_index`. -/
def maxArrayIndexBound : F64 := .int false 4294967295

/-- `JsNumber::same_value` (src/evaluator/src/language_types/number.rs):
NaN is SameValue to NaN; otherwise IEEE equality plus equal `signum`
(which separates +0.0 from −0.0). -/
def JsNumber.same_value (x y : F64) : Bool :=
  if x.is_nan && y.is_nan then true
  else x.beq y && x.signum.beq y.signum

/-- Object ids: the model of a `JsObject` handle
(`Rc<RefCell<Inner>>`, src/evaluator/src/language_types/object.rs); the
Rust pointer equality of handles becomes equality of ids. -/
abbrev ObjId := Nat

/-- The `Value` enum (src/evaluator/src/language_types/mod.rs): Undefined,
Null, Boolean, String, Symbol (identity-compared, modelled by its numeric
id), Number (f64, modelled by `F64`), BigInt, Object (handle, modelled by
an object id). -/
inductive Value where
  | undefined : Value
  | null : Value
  | boolean : Bool → Value
  | string : String → Value
  | symbol : Nat → Value
  | number : F64 → Value
  | bigInt : Int → Value
  | object : ObjId → Value
deriving DecidableEq

/-- Outcome of running a piece of Rust code from the evaluator crate:
`ok` and `err` are the two sides of `Result<α, Value>`; `panicked` is a Rust
panic (`panic!`, failed `assert!`, `unwrap` of `None`, `todo!`); `diverged`
marks a loop cut off by the fuel bound of the embedding; `unmodeled` marks
an input outside the exactly-modelled fragment of f64 parsing/printing. -/
inductive RunResult (α : Type) where
  | ok : α → RunResult α
  | err : Value → RunResult α
  | panicked : RunResult α
  | diverged : RunResult α
  | unmodeled : RunResult α
deriving DecidableEq

/-- `JsNumber::to_string` for non-negative, non-zero, non-NaN doubles:
`"Infinity"` for +∞ and `format!` decimal notation for finite values.  The
`format!` output is modelled exactly for integer magnitudes below 2^53
(Rust prints the shortest round-tripping decimal, which for those is the
plain decimal expansion); larger or non-integer values are `unmodeled`. -/
def JsNumber.to_string_pos : F64 → RunResult String
  | .nan => .unmodeled
  | .inf _ => .ok "Infinity"
  | .int _ m => if m < 9007199254740992 then .ok (Nat.repr m) else .unmodeled

/-- `JsNumber::to_string` (src/evaluator/src/language_types/number.rs):
NaN → "NaN"; any zero → "0" (the IEEE `x == &0.0` test catches −0.0 too);
negative → "-" prefixed to the string of the negation (the source recurses;
here the recursive call is the non-negative case `to_string_pos`);
otherwise "Infinity" or `format!` decimal notation. -/
def JsNumber.to_string (x : F64) : RunResult String :=
  if x.is_nan then .ok "NaN"
  else if x.beq (.int false 0) then .ok "0"
  else if x.blt (.int false 0) then
    match JsNumber.to_string_pos x.neg with
    | .ok s => .ok ("-" ++ s)
    | .err e => .err e
    | .panicked => .panicked
    | .diverged => .diverged
    | .unmodeled => .unmodeled
  else JsNumber.to_string_pos x

/-- The `GetSet` enum (src/evaluator/src/specification_types/property_descriptor.rs):
a getter/setter slot holding either a callable object handle or undefined. -/
inductive GetSet where
  | object : ObjId → GetSet
  | undefined : GetSet
deriving DecidableEq

/-- `Default for GetSet` is `Undefined`. -/
def GetSet.default : GetSet := .undefined

/-- `From<GetSet> for Value`. -/
def GetSet.toValue : GetSet → Value
  | .undefined => .undefined
  | .object o => .object o

/-- The `PropertyKey` enum (src/evaluator/src/language_types/object.rs):
a String or a Symbol. -/
inductive PropertyKey where
  | string : String → PropertyKey
  | symbol : Nat → PropertyKey
deriving DecidableEq

/-- Conversion of a `PropertyKey` into a `Value` (the `p.clone().into()`
of `ordinary_own_property_keys`). -/
def PropertyKey.toValue : PropertyKey → Value
  | .string s => .string s
  | .symbol i => .symbol i

/-- The `PropertyDescriptor` struct
(src/evaluator/src/specification_types/property_descriptor.rs): a sparse
record of six optional fields. -/
structure PropertyDescriptor where
  value : Option Value
  writable : Option Bool
  get : Option GetSet
  set : Option GetSet
  enumerable : Option Bool
  configurable : Option Bool
deriving DecidableEq

namespace PropertyDescriptor

/-- `PropertyDescriptor::empty`. -/
def empty : PropertyDescriptor := ⟨none, none, none, none, none, none⟩

/-- `PropertyDescriptor::is_empty`: every field absent. -/
def is_empty (d : PropertyDescriptor) : Bool :=
  d.value.isNone && d.writable.isNone && d.get.isNone && d.set.isNone
    && d.enumerable.isNone && d.configurable.isNone

/-- `PropertyDescriptor::is_accessor_descriptor`: false iff both
`get` and `set` are absent. -/
def is_accessor_descriptor (d : PropertyDescriptor) : Bool :=
  !(d.get.isNone && d.set.isNone)

/-- `PropertyDescriptor::is_data_descriptor`: false iff both
`value` and `writable` are absent. -/
def is_data_descriptor (d : PropertyDescriptor) : Bool :=
  !(d.value.isNone && d.writable.isNone)

/-- `PropertyDescriptor::is_generic_descriptor`: neither accessor nor
data. -/
def is_generic_descriptor (d : PropertyDescriptor) : Bool :=
  !d.is_accessor_descriptor && !d.is_data_descriptor

end PropertyDescriptor

/-- The `Prototype` enum (src/evaluator/src/language_types/object.rs):
an object handle or the null sentinel. -/
inductive Prototype where
  | object : ObjId → Prototype
  | null : Prototype
deriving DecidableEq

/-- The property table `PropertyMap = HashMap<PropertyKey, PropertyDescriptor>`
(src/evaluator/src/language_types/object.rs line 18), modelled as an
association list.  A Rust `HashMap` iterates in unspecified order; the list
order here plays no role in any theorem (the only key-iterating operation,
`ordinary_own_property_keys`, panics before its result could be observed). -/
abbrev PropertyMap := List (PropertyKey × PropertyDescriptor)

namespace PropertyMap

/-- `HashMap::get`. -/
def get : PropertyMap → PropertyKey → Option PropertyDescriptor
  | [], _ => none
  | (k, d) :: rest, p => if k = p then some d else get rest p

/-- `HashMap::insert`: replace the binding of the key if present, else add
a binding (position in the list is irrelevant, see `PropertyMap`). -/
def insert : PropertyMap → PropertyKey → PropertyDescriptor → PropertyMap
  | [], p, d => [(p, d)]
  | (k, d0) :: rest, p, d =>
    if k = p then (k, d) :: rest else (k, d0) :: insert rest p d

/-- `HashMap::remove`. -/
def remove : PropertyMap → PropertyKey → PropertyMap
  | [], _ => []
  | (k, d0) :: rest, p => if k = p then rest else (k, d0) :: remove rest p

end PropertyMap

/-- The mutable `Inner` record of a `JsObject`
(src/evaluator/src/language_types/object.rs): property table, prototype
link, extensibility flag, and the internal-method dispatch table.  The
table itself is abstracted to the two facts the embedded code inspects:
whether `get_prototype_of` is the ordinary implementation
(`methods_ordinary`) and whether a `[[Call]]` method is present
(`callable`). -/
structure ObjectRecord where
  properties : PropertyMap
  prototype : Prototype
  extensible : Bool
  methods_ordinary : Bool
  callable : Bool
deriving DecidableEq

/-- A heap of object records addressed by object id, modelling the graph of
`Rc<RefCell<Inner>>` cells. -/
abbrev Heap := List (ObjId × ObjectRecord)

namespace Heap

/-- Dereference an object handle. -/
def get : Heap → ObjId → Option ObjectRecord
  | [], _ => none
  | (i, r) :: rest, o => if i = o then some r else get rest o

/-- Overwrite the record behind an object handle. -/
def update : Heap → ObjId → ObjectRecord → Heap
  | [], _, _ => []
  | (i, r0) :: rest, o, r =>
    if i = o then (i, r) :: rest else (i, r0) :: update rest o r

end Heap

/-- `JsBigInt::same_value` = `JsBigInt::equal`: mathematical equality. -/
def JsBigInt.same_value (x y : Int) : Bool := x == y

/-- `same_value` (src/evaluator/src/abstract_operations/testing_and_comparison_operations.rs):
different types are never SameValue; Numbers and BigInts use their numeric
SameValue; Undefined and Null are SameValue to themselves; Strings by
content, Booleans by value, Symbols and Objects by identity. -/
def same_value (x y : Value) : Bool :=
  match x, y with
  | .number a, .number b => JsNumber.same_value a b
  | .bigInt a, .bigInt b => JsBigInt.same_value a b
  | .undefined, .undefined => true
  | .null, .null => true
  | .string a, .string b => a == b
  | .boolean a, .boolean b => a == b
  | .symbol a, .symbol b => a == b
  | .object a, .object b => a == b
  | _, _ => false

/-- ASCII decimal digit test (code points 48–57). -/
def isAsciiDigit (c : Char) : Bool := 48 ≤ c.toNat && c.toNat ≤ 57

/-- Value of a list of ASCII decimal digits, most significant first. -/
def digitsToNat (cs : List Char) : Nat :=
  cs.foldl (fun acc c => acc * 10 + (c.toNat - 48)) 0

/-- Decimal-integer reading of a string: an optional sign (code point 45
is a minus, 43 a plus) followed by at least one ASCII digit.  Returns the
sign and the magnitude.  This is the fragment of Rust's
`str::parse::<f64>` grammar the embedding models. -/
def readIntLiteral (s : String) : Option (Bool × Nat) :=
  match s.data with
  | [] => none
  | c :: rest =>
    if c.toNat = 45 then
      if rest ≠ [] && rest.all isAsciiDigit then some (true, digitsToNat rest)
      else none
    else if c.toNat = 43 then
      if rest ≠ [] && rest.all isAsciiDigit then some (false, digitsToNat rest)
      else none
    else if (c :: rest).all isAsciiDigit then some (false, digitsToNat (c :: rest))
    else none

/-- Exponent part of the Rust `f64` literal grammar: `(e|E)(+|-)?digit+`
(code points 101/69 are e/E, 43/45 the signs). -/
def isExponentPart : List Char → Bool
  | c :: rest =>
    (c.toNat = 101 || c.toNat = 69) &&
      (match rest with
       | d :: ds =>
         if d.toNat = 43 || d.toNat = 45 then ds ≠ [] && ds.all isAsciiDigit
         else (d :: ds).all isAsciiDigit
       | [] => false)
  | [] => false

/-- Mantissa-with-optional-exponent part of the Rust `f64` literal
grammar: `digit+[.digit*]`, `.digit+` or `digit+.digit*`, each optionally
followed by an exponent part (code point 46 is the dot). -/
def isFloatBody (cs : List Char) : Bool :=
  let isMantissa : List Char → List Char → Bool := fun intPart rest =>
    match rest with
    | [] => intPart ≠ []
    | c :: tail =>
      if c.toNat = 46 then
        (intPart ≠ [] || tail.takeWhile isAsciiDigit ≠ []) &&
          (tail.dropWhile isAsciiDigit = [] || isExponentPart (tail.dropWhile isAsciiDigit))
      else isExponentPart (c :: tail) && intPart ≠ []
  isMantissa (cs.takeWhile isAsciiDigit) (cs.dropWhile isAsciiDigit)

/-- Recogniser for the full Rust `str::parse::<f64>` grammar: optional
sign, then a numeric body or one of the case-insensitive special words
`inf`, `infinity`, `nan`.  Strings rejected by this grammar make
`str::parse` fail. -/
def isFloatLiteral (s : String) : Bool :=
  let body : List Char → Bool := fun cs =>
    isFloatBody cs ||
      (let low := cs.map Char.toLower
       low = "inf".data || low = "infinity".data || low = "nan".data)
  match s.data with
  | [] => false
  | c :: rest =>
    if c.toNat = 43 || c.toNat = 45 then body rest else body (c :: rest)

/-- `string_to_number` (src/evaluator/src/language_types/string.rs):
`str.parse().unwrap_or(f64::NAN)`.  Modelled exactly on two fragments:
optionally signed decimal integer literals of magnitude below 2^53
(exactly representable, so parsing is exact) and strings the `f64` grammar
rejects (where `parse` fails and `unwrap_or` yields NaN).  The remaining
strings — well-formed float literals that are not small integers — are
`unmodeled` (their value is the nearest double, which this fragment does
not commit to). -/
def string_to_number (s : String) : RunResult F64 :=
  match readIntLiteral s with
  | some (neg, m) => if m < 9007199254740992 then .ok (.int neg m) else .unmodeled
  | none => if isFloatLiteral s then .unmodeled else .ok .nan

/-- `JsBigInt::to_string` (src/evaluator/src/language_types/big_int.rs).
Note the source recurses on the negation of a negative argument without
prepending a minus sign, so negative BigInts print like their absolute
value. -/
def JsBigInt.to_string (z : Int) : String := Nat.repr z.natAbs

namespace Value

/-- `Value::to_number` (src/evaluator/src/abstract_operations/type_conversion.rs):
Undefined → NaN, Null → 0, Booleans → 0/1, Numbers themselves, Strings via
`string_to_number`, Symbols and BigInts are errors, Objects go through
`to_primitive` — which is `todo!()` in the source, hence `panicked`. -/
def to_number : Value → RunResult F64
  | .undefined => .ok .nan
  | .null => .ok (.int false 0)
  | .boolean b => if b then .ok (.int false 1) else .ok (.int false 0)
  | .number n => .ok n
  | .string s => string_to_number s
  | .symbol _ => .err .undefined
  | .bigInt _ => .err .undefined
  | .object _ => .panicked

/-- `Value::to_string` (src/evaluator/src/abstract_operations/type_conversion.rs):
per-kind conversion; Symbols are errors; Objects go through `to_primitive`
(`todo!()` in the source, hence `panicked`). -/
def to_string : Value → RunResult String
  | .undefined => .ok "undefined"
  | .null => .ok "null"
  | .boolean b => if b then .ok "true" else .ok "false"
  | .number n => JsNumber.to_string n
  | .string s => .ok s
  | .symbol _ => .err .undefined
  | .bigInt z => .ok (JsBigInt.to_string z)
  | .object _ => .panicked

/-- `Value::canonical_numeric_index_string`
(src/evaluator/src/abstract_operations/type_conversion.rs): the string
"-0" maps to −0.0; any other string maps to its `to_number` value `n`
provided `to_string(n)` reproduces the string exactly, else to no value;
a non-string argument hits `panic!("should be a string")`. -/
def canonical_numeric_index_string : Value → RunResult (Option F64)
  | .string s =>
    if s = "-0" then .ok (some (.int true 0))
    else
      match to_number (.string s) with
      | .ok n =>
        match to_string (.number n) with
        | .ok t => if t ≠ s then .ok none else .ok (some n)
        | .err e => .err e
        | .panicked => .panicked
        | .diverged => .diverged
        | .unmodeled => .unmodeled
      | .err e => .err e
      | .panicked => .panicked
      | .diverged => .diverged
      | .unmodeled => .unmodeled
  | _ => .panicked

end Value

/-- `is_integer_index` (src/evaluator/src/abstract_operations/data_types_and_values.rs):
for a String, take its canonical numeric index; absent → false; positive
zero → true; otherwise sign-positive and below 2^53 − 1.  Any non-String
value is immediately false. -/
def is_integer_index (v : Value) : RunResult Bool :=
  match v with
  | .string s =>
    match Value.canonical_numeric_index_string (.string s) with
    | .ok none => .ok false
    | .ok (some numeric) =>
      if numeric.beq (.int false 0) && numeric.is_sign_positive then .ok true
      else .ok (numeric.is_sign_positive && numeric.blt maxIntegerIndexBound)
    | .err e => .err e
    | .panicked => .panicked
    | .diverged => .diverged
    | .unmodeled => .unmodeled
  | _ => .ok false

/-- `is_array_index` (src/evaluator/src/abstract_operations/data_types_and_values.rs):
as `is_integer_index` but bounded by 2^32 − 1. -/
def is_array_index (v : Value) : RunResult Bool :=
  match v with
  | .string s =>
    match Value.canonical_numeric_index_string (.string s) with
    | .ok none => .ok false
    | .ok (some numeric) =>
      if numeric.beq (.int false 0) && numeric.is_sign_positive then .ok true
      else .ok (numeric.is_sign_positive && numeric.blt maxArrayIndexBound)
    | .err e => .err e
    | .panicked => .panicked
    | .diverged => .diverged
    | .unmodeled => .unmodeled
  | _ => .ok false

/-- `ordinary_get_own_property`
(src/evaluator/src/abstract_operations/ordinary_object_internal_methods_and_internal_slots.rs):
look up the stored descriptor and project it into a fresh descriptor that
exposes value/writable for a data property, get/set for an accessor
property, plus enumerable/configurable.  The source wraps the result in
`Ok` and never returns `Err`, so the embedding returns the option
directly. -/
def ordinary_get_own_property (props : PropertyMap) (p : PropertyKey) :
    Option PropertyDescriptor :=
  match props.get p with
  | none => none
  | some x =>
    if x.is_data_descriptor then
      some ⟨x.value, x.writable, none, none, x.enumerable, x.configurable⟩
    else if x.is_accessor_descriptor then
      some ⟨none, none, x.get, x.set, x.enumerable, x.configurable⟩
    else
      some ⟨none, none, none, none, x.enumerable, x.configurable⟩

/-- Step 8.b.ii of `validate_and_apply_property_descriptor`: the getter
identity check on a non-configurable accessor property, followed by the
step 8.b.iii `return Ok(true)`.  Split out because the source reaches it
from two control paths (requested setter absent, or present and
identical). -/
def validate_accessor_get_check (desc current : PropertyDescriptor)
    (props : PropertyMap) : RunResult (Bool × PropertyMap) :=
  match desc.get with
  | some g =>
    match current.get with
    | none => .panicked
    | some cg =>
      if !(same_value g.toValue cg.toValue) then .ok (false, props)
      else .ok (true, props)
  | none => .ok (true, props)

/-- `validate_and_apply_property_descriptor`
(src/evaluator/src/abstract_operations/ordinary_object_internal_methods_and_internal_slots.rs
lines 146–309), acting on the target object's property table `props`;
`target` is `some p` when a concrete (object, key) pair was supplied.
The transliteration keeps the source's branch structure, including:
step 4.b, which rejects whenever `desc.enumerable` is `Some(true)` without
consulting `current.enumerable` (the comment in the source quotes the
SameValue comparison the code does not perform); the in-place kind
conversion of step 6, whose effect is immediately overwritten by step 9;
and step 9, which inserts the unchanged `current` parameter rather than
merging the fields of `desc` onto it (the source comment describes a merge
the code does not perform). -/
def validate_and_apply_property_descriptor
    (target : Option PropertyKey) (extensible : Bool)
    (desc : PropertyDescriptor) (current? : Option PropertyDescriptor)
    (props : PropertyMap) : RunResult (Bool × PropertyMap) :=
  match current? with
  | none =>
    -- 2.a. If extensible is false, return false.
    if !extensible then .ok (false, props)
    -- 2.c. generic or data requested: create a defaulted data property.
    else if desc.is_generic_descriptor || desc.is_data_descriptor then
      match target with
      | some p =>
        .ok (true, props.insert p
          ⟨some (desc.value.getD .undefined), some (desc.writable.getD false),
           none, none,
           some (desc.enumerable.getD false), some (desc.configurable.getD false)⟩)
      | none => .ok (true, props)
    -- 2.d.i. assert!(desc.is_accessor_descriptor())
    else if !desc.is_accessor_descriptor then .panicked
    -- 2.d.ii. accessor requested: create a defaulted accessor property.
    else
      match target with
      | some p =>
        .ok (true, props.insert p
          ⟨none, none,
           some (desc.get.getD GetSet.default), some (desc.set.getD GetSet.default),
           some (desc.enumerable.getD false), some (desc.configurable.getD false)⟩)
      | none => .ok (true, props)
  | some current =>
    -- 3. If every field in Desc is absent, return true.
    if desc.is_empty then .ok (true, props)
    -- 4.a. non-configurable and Desc.[[Configurable]] present and true.
    else if current.configurable = some false && desc.configurable = some true then
      .ok (false, props)
    -- 4.b. source: `if let Some(true) = desc.enumerable` — rejects on a
    -- requested enumerable of true regardless of current.enumerable.
    else if current.configurable = some false && desc.enumerable = some true then
      .ok (false, props)
    -- 5. generic request: no further validation, fall through to step 9.
    else if desc.is_generic_descriptor then
      match target with
      | some p => .ok (true, props.insert p current)
      | none => .ok (true, props)
    -- 6. data-ness of current and Desc differ.
    else if current.is_data_descriptor != desc.is_data_descriptor then
      if current.configurable = some false then .ok (false, props)
      else
        match target with
        | some p =>
          -- 6.b/6.c. in-place kind conversion via get_mut(p).unwrap().
          match props.get p with
          | none => .panicked
          | some stored =>
            let props1 :=
              if current.is_data_descriptor then
                props.insert p
                  { stored with
                    value := none
                    writable := none
                    get := some GetSet.default
                    set := some GetSet.default }
              else
                props.insert p
                  { stored with
                    get := none
                    set := none
                    value := some Value.undefined
                    writable := some false }
            -- 9. insert the unchanged `current` parameter (overwrites 6).
            .ok (true, props1.insert p current)
        | none => .ok (true, props)
    -- 7. both data descriptors.
    else if current.is_data_descriptor && desc.is_data_descriptor then
      if current.configurable = some false && current.writable = some false then
        -- 7.a.i. requested writable true is rejected.
        if desc.writable = some true then .ok (false, props)
        else
          -- 7.a.ii. requested value must be SameValue to current.value.unwrap().
          match desc.value with
          | some v =>
            match current.value with
            | none => .panicked
            | some cv =>
              if !(same_value v cv) then .ok (false, props) else .ok (true, props)
          | none => .ok (true, props)
      else
        match target with
        | some p => .ok (true, props.insert p current)
        | none => .ok (true, props)
    -- 8. both accessor descriptors.
    else
      -- 8.a. assert!(current.is_accessor_descriptor() && desc.is_accessor_descriptor())
      if !(current.is_accessor_descriptor && desc.is_accessor_descriptor) then .panicked
      else if current.configurable = some false then
        -- 8.b.i. setter identity check against current.set.unwrap().
        match desc.set with
        | some s =>
          match current.set with
          | none => .panicked
          | some cs =>
            if !(same_value s.toValue cs.toValue) then .ok (false, props)
            else validate_accessor_get_check desc current props
        | none => validate_accessor_get_check desc current props
      else
        match target with
        | some p => .ok (true, props.insert p current)
        | none => .ok (true, props)

/-- `is_compatible_property_descriptor`: `validate_and_apply` with no
target (pure compatibility check, no mutation). -/
def is_compatible_property_descriptor (extensible : Bool)
    (desc : PropertyDescriptor) (current? : Option PropertyDescriptor)
    (props : PropertyMap) : RunResult (Bool × PropertyMap) :=
  validate_and_apply_property_descriptor none extensible desc current? props

/-- `ordinary_is_extensible`: read the flag. -/
def ordinary_is_extensible (rec : ObjectRecord) : RunResult Bool :=
  .ok rec.extensible

/-- `ordinary_prevent_extensions`: clear the flag, return true. -/
def ordinary_prevent_extensions (rec : ObjectRecord) : RunResult (Bool × ObjectRecord) :=
  .ok (true, { rec with extensible := false })

/-- `ordinary_define_own_property`
(src/evaluator/src/abstract_operations/ordinary_object_internal_methods_and_internal_slots.rs
lines 117–133): fetch current via GetOwnProperty, extensible via
IsExtensible (both dispatching to the ordinary implementations for an
ordinary object), then delegate to `validate_and_apply` with the object's
own table as target.  Only the receiver object's record is read or
written, so the embedding acts on the single `ObjectRecord`. -/
def ordinary_define_own_property (rec : ObjectRecord) (p : PropertyKey)
    (desc : PropertyDescriptor) : RunResult (Bool × ObjectRecord) :=
  match validate_and_apply_property_descriptor (some p) rec.extensible desc
      (ordinary_get_own_property rec.properties p) rec.properties with
  | .ok (b, props) => .ok (b, { rec with properties := props })
  | .err e => .err e
  | .panicked => .panicked
  | .diverged => .diverged
  | .unmodeled => .unmodeled

/-- The walk of steps 5–7 of `ordinary_set_prototype_of`: follow prototype
links from `v`; reject (`Ok(false)` in the source) on meeting `o` itself;
stop and accept at null or at an object whose `get_prototype_of` is not
the ordinary implementation.  `fuel` bounds the walk, which in the source
is an unbounded `while` loop (it would spin forever on a pre-existing
cycle of ordinary objects not passing through `o`). -/
def set_prototype_of_walk (h : Heap) (o : ObjId) : Nat → Prototype → RunResult Bool
  | _, .null => .ok true
  | 0, .object _ => .diverged
  | fuel + 1, .object q =>
    if q = o then .ok false
    else
      match h.get q with
      | none => .panicked
      | some rq =>
        if !rq.methods_ordinary then .ok true
        else set_prototype_of_walk h o fuel rq.prototype

/-- `ordinary_set_prototype_of`
(src/evaluator/src/abstract_operations/ordinary_object_internal_methods_and_internal_slots.rs
lines 22–64).  Step 2 accepts immediately when `v` equals the current
prototype.  Step 4 of the source reads `if extensible.into() { return
Ok(false) }`: it returns false when the object IS extensible, although its
own comment says "If extensible is false, return false" — the condition is
transliterated as written, inverted.  Otherwise the cycle walk runs and on
acceptance the prototype is overwritten and true returned. -/
def ordinary_set_prototype_of (h : Heap) (fuel : Nat) (o : ObjId) (v : Prototype) :
    RunResult (Bool × Heap) :=
  match h.get o with
  | none => .panicked
  | some rec =>
    -- 1./2. If SameValue(V, current) is true, return true.
    if v = rec.prototype then .ok (true, h)
    -- 3./4. source: `if extensible.into() { return Ok(false) }` (inverted).
    else if rec.extensible then .ok (false, h)
    else
      match set_prototype_of_walk h o fuel v with
      | .ok false => .ok (false, h)
      -- 8./9. Set O.[[Prototype]] to V, return true.
      | .ok true => .ok (true, h.update o { rec with prototype := v })
      | .err e => .err e
      | .panicked => .panicked
      | .diverged => .diverged
      | .unmodeled => .unmodeled

/-- The key-collecting loop of `ordinary_own_property_keys` (step 2): push
every own key that is an array index, in table iteration order,
propagating the `?` of `is_array_index`. -/
def collect_array_index_keys : List (PropertyKey × PropertyDescriptor) →
    RunResult (List PropertyKey)
  | [] => .ok []
  | (p, _) :: rest =>
    match is_array_index p.toValue with
    | .ok true =>
      match collect_array_index_keys rest with
      | .ok ks => .ok (p :: ks)
      | .err e => .err e
      | .panicked => .panicked
      | .diverged => .diverged
      | .unmodeled => .unmodeled
    | .ok false => collect_array_index_keys rest
    | .err e => .err e
    | .panicked => .panicked
    | .diverged => .diverged
    | .unmodeled => .unmodeled

/-- `ordinary_own_property_keys`
(src/evaluator/src/abstract_operations/ordinary_object_internal_methods_and_internal_slots.rs
lines 488–507): after the array-index loop the source hits `todo!()` —
steps 3–5 (remaining string keys and symbol keys) are unimplemented — so
every call that survives the loop panics. -/
def ordinary_own_property_keys (rec : ObjectRecord) : RunResult (List PropertyKey) :=
  match collect_array_index_keys rec.properties with
  | .ok _keys => .panicked
  | .err e => .err e
  | .panicked => .panicked
  | .diverged => .diverged
  | .unmodeled => .unmodeled

/-- The behaviour of the `[[Call]]` internal methods of the callable
objects in the heap, abstracted: non-ordinary object kinds (functions) are
out of the embedded crate's scope, so the body of a `[[Call]]` table entry
is a parameter mapping (callee id, this value, arguments) to a result. -/
abbrev CallFn := ObjId → Value → List Value → RunResult Value

/-- `Value::is_callable`
(src/evaluator/src/abstract_operations/testing_and_comparison_operations.rs):
an Object whose internal-method table has a `[[Call]]` entry. -/
def Value.is_callable (h : Heap) : Value → Bool
  | .object o =>
    match h.get o with
    | some r => r.callable
    | none => false
  | _ => false

/-- `call` (src/evaluator/src/abstract_operations/operations_on_objects.rs
lines 26–38): throw (a placeholder Undefined) if `f` is not callable, else
dispatch to the callee's `[[Call]]` with this-value `v` and the argument
list. -/
def call (h : Heap) (cf : CallFn) (f v : Value) (args : List Value) : RunResult Value :=
  if !(f.is_callable h) then .err .undefined
  else
    match f with
    | .object o => cf o v args
    | _ => .panicked

/-- `ordinary_get`
(src/evaluator/src/abstract_operations/ordinary_object_internal_methods_and_internal_slots.rs
lines 334–371): own descriptor lookup; if absent, delegate to the
prototype's `get` with the same receiver (the embedding covers heaps whose
objects dispatch `get` to the ordinary implementation), or return
Undefined at a null prototype; a data descriptor returns its value; an
accessor with undefined getter returns Undefined, else the getter is
invoked through `call` with this-value `receiver` and no arguments.
`fuel` bounds the prototype recursion, unbounded in the source. -/
def ordinary_get (h : Heap) (cf : CallFn) : Nat → ObjId → PropertyKey → Value →
    RunResult Value
  | 0, _, _, _ => .diverged
  | fuel + 1, o, p, receiver =>
    match h.get o with
    | none => .panicked
    | some rec =>
      match ordinary_get_own_property rec.properties p with
      | none =>
        match rec.prototype with
        | .null => .ok .undefined
        | .object parent => ordinary_get h cf fuel parent p receiver
      | some desc =>
        if desc.is_data_descriptor then
          match desc.value with
          | some v => .ok v
          | none => .panicked
        else if !desc.is_accessor_descriptor then .panicked
        else
          match desc.get with
          | none => .panicked
          | some .undefined => .ok .undefined
          | some (.object getter) => call h cf (.object getter) receiver []

/-- A committed data property: `value` and `writable` present, `get` and
`set` absent (the storage shape of claim C9). -/
def PropertyDescriptor.isStoredData (d : PropertyDescriptor) : Prop :=
  d.value.isSome ∧ d.writable.isSome ∧ d.get = none ∧ d.set = none

/-- A committed accessor property: `get` and `set` present, `value` and
`writable` absent. -/
def PropertyDescriptor.isStoredAccessor (d : PropertyDescriptor) : Prop :=
  d.value = none ∧ d.writable = none ∧ d.get.isSome ∧ d.set.isSome

/-- A descriptor fit for storage: exactly one of the two kinds, never
simultaneously data and accessor. -/
def PropertyDescriptor.WfStored (d : PropertyDescriptor) : Prop :=
  d.isStoredData ∨ d.isStoredAccessor

instance (d : PropertyDescriptor) : Decidable d.isStoredData := by
  unfold PropertyDescriptor.isStoredData; infer_instance

instance (d : PropertyDescriptor) : Decidable d.isStoredAccessor := by
  unfold PropertyDescriptor.isStoredAccessor; infer_instance

instance (d : PropertyDescriptor) : Decidable d.WfStored := by
  unfold PropertyDescriptor.WfStored; infer_instance

/-- Every descriptor stored in a property table is fit for storage. -/
def WfMap (props : PropertyMap) : Prop :=
  ∀ k d, props.get k = some d → d.WfStored

/-- `reaches_no_own h p n o q`: starting from object `o`, `n` prototype
steps lead to `q`, and none of the objects strictly before `q` on that
path has an own property `p` (so an ordinary `get` walks past them). -/
def reaches_no_own (h : Heap) (p : PropertyKey) : Nat → ObjId → ObjId → Prop
  | 0, o, q => o = q
  | n + 1, o, q =>
    ∃ rec, h.get o = some rec ∧ rec.properties.get p = none ∧
      ∃ o2, rec.prototype = .object o2 ∧ reaches_no_own h p n o2 q

namespace PropertyMap

theorem get_insert_self (props : PropertyMap) (p : PropertyKey)
    (d : PropertyDescriptor) : (props.insert p d).get p = some d := by
  induction props with
  | nil => simp [insert, get]
  | cons hd tl ih =>
    obtain ⟨k, d0⟩ := hd
    by_cases hk : k = p <;> simp [insert, get, hk, ih]

theorem get_insert_ne (props : PropertyMap) (p q : PropertyKey)
    (d : PropertyDescriptor) (hne : q ≠ p) :
    (props.insert p d).get q = props.get q := by
  induction props with
  | nil => simp [insert, get, Ne.symm hne]
  | cons hd tl ih =>
    obtain ⟨k, d0⟩ := hd
    by_cases hk : k = p
    · subst hk
      simp [insert, get, Ne.symm hne, ih]
    · by_cases hq : k = q <;> simp [insert, get, hk, hq, hne, ih]

theorem WfMap_insert {props : PropertyMap} {d : PropertyDescriptor}
    (p : PropertyKey) (hw : WfMap props) (hd : d.WfStored) :
    WfMap (props.insert p d) := by
  intro k d' hk
  by_cases hkp : k = p
  · subst hkp
    rw [get_insert_self] at hk
    injection hk with h
    exact h ▸ hd
  · rw [get_insert_ne _ _ _ _ hkp] at hk
    exact hw k d' hk

end PropertyMap

/-- Fixture for C1: a stored, fully configurable and writable data
property holding the number 1 under key "x". -/
def c1_stored : PropertyDescriptor :=
  ⟨some (.number (.int false 1)), some true, none, none, some true, some true⟩

/-- Fixture for C1: the request defining only a value of 2. -/
def c1_requested : PropertyDescriptor :=
  ⟨some (.number (.int false 2)), none, none, none, none, none⟩

/-- Fixture for C1: an extensible ordinary object owning only "x". -/
def c1_object : ObjectRecord := ⟨[(.string "x", c1_stored)], .null, true, true, false⟩

/-- Claim C1: after a successful DefineOwnProperty the stored descriptor
should be `current` with every field present in the request overwritten —
defining a value of 2 over the configurable writable data property with
value 1 should leave 2 stored.  The code instead re-inserts the unchanged
`current` descriptor at step 9 (line 303 of
ordinary_object_internal_methods_and_internal_slots.rs): the call returns
true but the object is unchanged and the stored value is still the
number 1, not 2. -/
theorem c1_define_own_property_drops_requested_fields :
    ordinary_define_own_property c1_object (.string "x") c1_requested
      = .ok (true, c1_object) ∧
    (c1_object.properties.get (.string "x")).bind (·.value)
      = some (.number (.int false 1)) := by decide

/-- Fixture for C2: a non-extensible ordinary object (id 0) with null
prototype. -/
def c2_target : ObjectRecord := ⟨[], .null, false, true, false⟩

/-- Fixture for C2: an extensible ordinary object (id 1) with null
prototype. -/
def c2_candidate : ObjectRecord := ⟨[], .null, true, true, false⟩

/-- Fixture for C2: the two-object heap. -/
def c2_heap : Heap := [(0, c2_target), (1, c2_candidate)]

/-- Claim C2: with `o.extensible` false, SetPrototypeOf should return
false and leave the prototype unchanged.  The source's step 4 reads
`if extensible.into() { return Ok(false) }` — the test is inverted against
its own comment — so the non-extensible object 0 has its prototype
rewritten to object 1 with result true, while the extensible object 1 is
refused a prototype change (second conjunct). -/
theorem c2_set_prototype_of_inverted_extensible_check :
    ordinary_set_prototype_of c2_heap 5 0 (.object 1)
      = .ok (true, [(0, ⟨[], .object 1, false, true, false⟩), (1, c2_candidate)]) ∧
    ordinary_set_prototype_of c2_heap 5 1 (.object 0) = .ok (false, c2_heap) := by
  decide

/-- Fixture for C3: a stored non-configurable data property that IS
enumerable (enumerable = true, configurable = false). -/
def c3_current : PropertyDescriptor :=
  ⟨some (.number (.int false 1)), some true, none, none, some true, some false⟩

/-- Fixture for C3: the table owning that property under key "k". -/
def c3_props : PropertyMap := [(.string "k", c3_current)]

/-- Claim C3: with `current.configurable` false, the enumerable field
should reject exactly when `desc.enumerable` is present and differs from
`current.enumerable`.  The source (step 4.b, line 218) tests only
`if let Some(true) = desc.enumerable`: requesting enumerable = true over
the already-enumerable property is rejected although the values agree
(first conjunct), and requesting enumerable = false — which differs from
the current true — is accepted (second conjunct). -/
theorem c3_enumerable_check_ignores_current :
    validate_and_apply_property_descriptor (some (.string "k")) true
      ⟨none, none, none, none, some true, none⟩ (some c3_current) c3_props
      = .ok (false, c3_props) ∧
    validate_and_apply_property_descriptor (some (.string "k")) true
      ⟨none, none, none, none, some false, none⟩ (some c3_current) c3_props
      = .ok (true, c3_props) := by decide

/-- Fixture for C4: a committed data descriptor with default value. -/
def c4_descriptor : PropertyDescriptor :=
  ⟨some .undefined, some true, none, none, some true, some true⟩

/-- Fixture for C4: the object of the claim's example, owning the string
keys "b", "2", "a", "0" (inserted in that order) and a symbol. -/
def c4_object : ObjectRecord :=
  ⟨[(.string "b", c4_descriptor), (.string "2", c4_descriptor),
    (.string "a", c4_descriptor), (.string "0", c4_descriptor),
    (.symbol 0, c4_descriptor)], .null, true, true, false⟩

/-- Claim C4: OwnPropertyKeys should return, without failure, the keys
ordered integer indices first, then remaining strings, then symbols.  The
source collects the array-index keys and then hits `todo!()` (line 500):
steps 3–5 are unimplemented, so the call panics on the claim's own
example instead of returning ["0", "2", "b", "a", symbol]. -/
theorem c4_own_property_keys_panics :
    ordinary_own_property_keys c4_object = .panicked := by decide

/-- Claim C5, counterexample: the claim states IsIntegerIndex("-0") =
true.  The canonical numeric index of "-0" is −0.0, whose
`is_sign_positive` is false, so both guards of `is_integer_index` fail
and the code returns false. -/
theorem c5_minus_zero_counterexample :
    is_integer_index (.string "-0") = .ok false := by decide

/-- Claim C5 (amended): IsIntegerIndex returns true exactly for strings
whose canonical numeric index exists and is sign-positive and either zero
or below 2^53 − 1; the string "-0" yields false (its canonical value −0.0
is not sign-positive — only positive zero enjoys the zero special case);
the other concrete values behave as claimed: "0" → true, "01" → false,
IsArrayIndex("4294967294") = true, IsArrayIndex("4294967295") = false,
IsIntegerIndex("4294967295") = true. -/
theorem c5_integer_index_characterisation :
    (∀ s : String, is_integer_index (.string s) = .ok true ↔
      ∃ n, Value.canonical_numeric_index_string (.string s) = .ok (some n) ∧
        n.is_sign_positive = true ∧
        (n.beq (.int false 0) = true ∨ n.blt maxIntegerIndexBound = true)) ∧
    is_integer_index (.string "0") = .ok true ∧
    is_integer_index (.string "-0") = .ok false ∧
    is_integer_index (.string "01") = .ok false ∧
    is_array_index (.string "4294967294") = .ok true ∧
    is_array_index (.string "4294967295") = .ok false ∧
    is_integer_index (.string "4294967295") = .ok true := by
  refine ⟨?_, by decide, by decide, by decide, by decide, by decide, by decide⟩
  intro s
  cases hc : Value.canonical_numeric_index_string (.string s) with
  | ok res =>
    cases res with
    | none => simp [is_integer_index, hc]
    | some n =>
      cases hb : n.beq (.int false 0) <;>
        cases hs : n.is_sign_positive <;>
          cases hl : n.blt maxIntegerIndexBound <;>
            simp [is_integer_index, hc, hb, hs, hl]
  | err e => simp [is_integer_index, hc]
  | panicked => simp [is_integer_index, hc]
  | diverged => simp [is_integer_index, hc]
  | unmodeled => simp [is_integer_index, hc]

/-- Witness for C5: the characterisation instantiated at "0", whose
canonical numeric index is +0.0. -/
theorem c5_witness :
    is_integer_index (.string "0") = .ok true ∧
    Value.canonical_numeric_index_string (.string "0") = .ok (some (.int false 0)) :=
  ⟨(c5_integer_index_characterisation.1 "0").2
      ⟨.int false 0, by decide, by decide, Or.inl (by decide)⟩,
    by decide⟩

/-- Claim C7: for distinct ordinary extensible objects with
`a.prototype = b` (and `b`'s prototype not already `a`), setting `b`'s
prototype to `a` returns false and leaves the heap — in particular
`b.prototype` — untouched.  (In the code the rejection comes from the
inverted extensibility test of step 4 rather than from the cycle walk,
but the observable outcome is exactly the claimed one.) -/
theorem c7_prototype_cycle_rejected
    (h : Heap) (a b : ObjId) (ra rb : ObjectRecord) (fuel : Nat)
    (hab : a ≠ b)
    (hga : h.get a = some ra) (hgb : h.get b = some rb)
    (hpa : ra.prototype = .object b)
    (hoa : ra.methods_ordinary = true) (hob : rb.methods_ordinary = true)
    (hea : ra.extensible = true) (heb : rb.extensible = true)
    (hcur : rb.prototype ≠ .object a) :
    ordinary_set_prototype_of h fuel b (.object a) = .ok (false, h) := by
  unfold ordinary_set_prototype_of
  rw [hgb]
  simp [Ne.symm hcur, heb]

/-- Witness for C7: object 0 (a) has prototype object 1 (b); both
ordinary, extensible; the rejected call leaves the heap unchanged. -/
theorem c7_witness :
    ordinary_set_prototype_of
      [(0, ⟨[], .object 1, true, true, false⟩), (1, ⟨[], .null, true, true, false⟩)]
      3 1 (.object 0) = .ok (false,
      [(0, ⟨[], .object 1, true, true, false⟩), (1, ⟨[], .null, true, true, false⟩)]) :=
  c7_prototype_cycle_rejected _ 0 1 ⟨[], .object 1, true, true, false⟩
    ⟨[], .null, true, true, false⟩ 3 (by decide) (by decide) (by decide)
    (by decide) (by decide) (by decide) (by decide) (by decide) (by decide)

/-- Claim C6: against a stored data property with configurable = false,
writable = false and value `v`, DefineOwnProperty with a requested data
descriptor (touching only the value and writable fields) returns false
when the request asks writable = true or carries a value not
SameValue-equal to `v`; and returns true with the object unchanged when
the requested writable is absent or false and the requested value is
absent or SameValue-equal to `v`. -/
theorem c6_frozen_data_property_guard
    (rec : ObjectRecord) (p : PropertyKey) (v : Value) (e : Bool)
    (dv : Option Value) (dw : Option Bool)
    (hstored : rec.properties.get p
      = some ⟨some v, some false, none, none, some e, some false⟩)
    (hdata : dv ≠ none ∨ dw ≠ none) :
    (dw = some true ∨ (∃ v2, dv = some v2 ∧ same_value v2 v = false) →
      ordinary_define_own_property rec p ⟨dv, dw, none, none, none, none⟩
        = .ok (false, rec)) ∧
    ((dw = none ∨ dw = some false) ∧
        (dv = none ∨ ∃ v2, dv = some v2 ∧ same_value v2 v = true) →
      ordinary_define_own_property rec p ⟨dv, dw, none, none, none, none⟩
        = .ok (true, rec)) := by
  have hproj : ordinary_get_own_property rec.properties p
      = some ⟨some v, some false, none, none, some e, some false⟩ := by
    unfold ordinary_get_own_property
    rw [hstored]
    simp [PropertyDescriptor.is_data_descriptor]
  constructor
  · rintro (hw | ⟨v2, hv2, hsv⟩)
    · subst hw
      unfold ordinary_define_own_property
      rw [hproj]
      cases dv <;>
        simp [validate_and_apply_property_descriptor,
          PropertyDescriptor.is_empty, PropertyDescriptor.is_generic_descriptor,
          PropertyDescriptor.is_accessor_descriptor,
          PropertyDescriptor.is_data_descriptor]
    · subst hv2
      unfold ordinary_define_own_property
      rw [hproj]
      cases dw with
      | none =>
        simp [validate_and_apply_property_descriptor,
          PropertyDescriptor.is_empty, PropertyDescriptor.is_generic_descriptor,
          PropertyDescriptor.is_accessor_descriptor,
          PropertyDescriptor.is_data_descriptor, hsv]
      | some b =>
        cases b <;>
          simp [validate_and_apply_property_descriptor,
            PropertyDescriptor.is_empty, PropertyDescriptor.is_generic_descriptor,
            PropertyDescriptor.is_accessor_descriptor,
            PropertyDescriptor.is_data_descriptor, hsv]
  · rintro ⟨hw, hv⟩
    unfold ordinary_define_own_property
    rw [hproj]
    rcases hv with hv | ⟨v2, hv2, hsv⟩
    · subst hv
      rcases hw with hw | hw
      · subst hw
        rcases hdata with hcon | hcon <;> exact absurd rfl hcon
      · subst hw
        simp [validate_and_apply_property_descriptor,
          PropertyDescriptor.is_empty, PropertyDescriptor.is_generic_descriptor,
          PropertyDescriptor.is_accessor_descriptor,
          PropertyDescriptor.is_data_descriptor]
    · subst hv2
      rcases hw with hw | hw <;> subst hw <;>
        simp [validate_and_apply_property_descriptor,
          PropertyDescriptor.is_empty, PropertyDescriptor.is_generic_descriptor,
          PropertyDescriptor.is_accessor_descriptor,
          PropertyDescriptor.is_data_descriptor, hsv]

/-- Fixture for the C6 witness: an object owning the claim's stored
property, a data property with value 1, writable false, configurable
false. -/
def c6_object : ObjectRecord :=
  ⟨[(.string "x",
     ⟨some (.number (.int false 1)), some false, none, none, some false, some false⟩)],
   .null, true, true, false⟩

/-- Witness for C6: the claim's three examples — redefining with value 2
fails, with value 1 succeeds as a no-op, with writable true fails. -/
theorem c6_witness :
    ordinary_define_own_property c6_object (.string "x")
      ⟨some (.number (.int false 2)), none, none, none, none, none⟩
      = .ok (false, c6_object) ∧
    ordinary_define_own_property c6_object (.string "x")
      ⟨some (.number (.int false 1)), none, none, none, none, none⟩
      = .ok (true, c6_object) ∧
    ordinary_define_own_property c6_object (.string "x")
      ⟨none, some true, none, none, none, none⟩
      = .ok (false, c6_object) :=
  ⟨(c6_frozen_data_property_guard c6_object (.string "x")
      (.number (.int false 1)) false (some (.number (.int false 2))) none
      (by decide) (Or.inl (by decide))).1 (Or.inr ⟨_, rfl, by decide⟩),
   (c6_frozen_data_property_guard c6_object (.string "x")
      (.number (.int false 1)) false (some (.number (.int false 1))) none
      (by decide) (Or.inl (by decide))).2 ⟨Or.inl rfl, Or.inr ⟨_, rfl, by decide⟩⟩,
   (c6_frozen_data_property_guard c6_object (.string "x")
      (.number (.int false 1)) false none (some true)
      (by decide) (Or.inr (by decide))).1 (Or.inl rfl)⟩

/-- `JsNumber.to_string_pos` only produces `ok` or `unmodeled`. -/
theorem JsNumber_to_string_pos_not_panicked (x : F64) :
    JsNumber.to_string_pos x ≠ .panicked := by
  cases x <;> simp [JsNumber.to_string_pos] <;> split <;> simp

/-- `JsNumber.to_string` only produces `ok` or `unmodeled`: the source
function cannot panic. -/
theorem JsNumber_to_string_not_panicked (x : F64) :
    JsNumber.to_string x ≠ .panicked := by
  unfold JsNumber.to_string
  split
  · simp
  · split
    · simp
    · split
      · have hpos := JsNumber_to_string_pos_not_panicked x.neg
        cases hp : JsNumber.to_string_pos x.neg <;> simp_all
      · exact JsNumber_to_string_pos_not_panicked x

/-- `string_to_number` only produces `ok` or `unmodeled`: Rust
`str.parse::<f64>().unwrap_or(NAN)` is total. -/
theorem string_to_number_not_panicked (s : String) :
    string_to_number s ≠ .panicked := by
  unfold string_to_number
  split
  · split <;> simp
  · split <;> simp

/-- On a String argument `canonical_numeric_index_string` never reaches
its panic branch. -/
theorem canonical_numeric_index_string_not_panicked (s : String) :
    Value.canonical_numeric_index_string (.string s) ≠ .panicked := by
  have hred : Value.canonical_numeric_index_string (.string s)
      = (if s = "-0" then .ok (some (.int true 0))
         else
           match string_to_number s with
           | .ok n =>
             match JsNumber.to_string n with
             | .ok t => if t ≠ s then .ok none else .ok (some n)
             | .err e => .err e
             | .panicked => .panicked
             | .diverged => .diverged
             | .unmodeled => .unmodeled
           | .err e => .err e
           | .panicked => .panicked
           | .diverged => .diverged
           | .unmodeled => .unmodeled) := rfl
  rw [hred]
  split
  · simp
  · split
    case _ n heqn =>
      split
      case _ t heqt => split <;> simp
      case _ e heqt => simp
      case _ heqt => exact absurd heqt (JsNumber_to_string_not_panicked n)
      case _ heqt => simp
      case _ heqt => simp
    case _ e heqn => simp
    case _ heqn => exact absurd heqn (string_to_number_not_panicked s)
    case _ heqn => simp
    case _ heqn => simp

/-- Claim C10: for every Value that is not a String, `is_integer_index`
and `is_array_index` return Ok(false) (the non-String match arm answers
directly, without calling `canonical_numeric_index_string`); and for
every Value whatsoever neither entry point can reach the
`panic!("should be a string")` branch of
`canonical_numeric_index_string`. -/
theorem c10_non_string_inputs_safe :
    (∀ v : Value, (∀ s, v ≠ .string s) →
      is_integer_index v = .ok false ∧ is_array_index v = .ok false) ∧
    (∀ v : Value,
      is_integer_index v ≠ .panicked ∧ is_array_index v ≠ .panicked) := by
  constructor
  · intro v hv
    cases v
    case string s => exact absurd rfl (hv s)
    all_goals exact ⟨rfl, rfl⟩
  · intro v
    cases v
    case string s =>
      have h := canonical_numeric_index_string_not_panicked s
      cases hc : Value.canonical_numeric_index_string (.string s) with
      | ok res =>
        cases res with
        | none => exact ⟨by simp [is_integer_index, hc], by simp [is_array_index, hc]⟩
        | some n =>
          constructor
          · simp only [is_integer_index, hc]
            split <;> simp
          · simp only [is_array_index, hc]
            split <;> simp
      | err e => exact ⟨by simp [is_integer_index, hc], by simp [is_array_index, hc]⟩
      | panicked => exact absurd hc h
      | diverged => exact ⟨by simp [is_integer_index, hc], by simp [is_array_index, hc]⟩
      | unmodeled => exact ⟨by simp [is_integer_index, hc], by simp [is_array_index, hc]⟩
    all_goals exact ⟨by simp [is_integer_index], by simp [is_array_index]⟩

/-- Witness for C10: the non-String conjunct instantiated at Null and at
the NaN Number. -/
theorem c10_witness :
    (is_integer_index Value.null = .ok false ∧ is_array_index Value.null = .ok false) ∧
    (is_integer_index (.number .nan) = .ok false ∧ is_array_index (.number .nan) = .ok false) :=
  ⟨c10_non_string_inputs_safe.1 Value.null (fun s h => Value.noConfusion h),
   c10_non_string_inputs_safe.1 (.number .nan) (fun s h => Value.noConfusion h)⟩

/-- `validate_accessor_get_check` never changes the property table: both
its outcomes of steps 8.b.ii–iii return without writing. -/
theorem validate_accessor_get_check_props_eq
    (desc current : PropertyDescriptor) (props : PropertyMap)
    (b : Bool) (props' : PropertyMap)
    (h : validate_accessor_get_check desc current props = .ok (b, props')) :
    props' = props := by
  unfold validate_accessor_get_check at h
  split at h
  · split at h
    · exact RunResult.noConfusion h
    · split at h <;>
        · injection h with h1
          injection h1 with hb hp
          exact hp.symm
  · injection h with h1
    injection h1 with hb hp
    exact hp.symm

/-- The projection `ordinary_get_own_property` of a well-formed stored
descriptor is itself well-formed. -/
theorem ordinary_get_own_property_wf
    (props : PropertyMap) (p : PropertyKey) (hwf : WfMap props) :
    ∀ c, ordinary_get_own_property props p = some c → c.WfStored := by
  intro c hc
  unfold ordinary_get_own_property at hc
  cases hg : props.get p with
  | none => rw [hg] at hc; exact Option.noConfusion hc
  | some x =>
    rw [hg] at hc
    rcases hwf p x hg with ⟨h1, h2, h3, h4⟩ | ⟨h1, h2, h3, h4⟩
    · obtain ⟨v, hv⟩ := Option.isSome_iff_exists.mp h1
      simp only [PropertyDescriptor.is_data_descriptor, hv, Option.isNone_none,
        Option.isNone_some, Bool.false_and, Bool.not_false, if_true] at hc
      injection hc with h
      subst h
      exact Or.inl ⟨by simp, h2, rfl, rfl⟩
    · obtain ⟨g, hg3⟩ := Option.isSome_iff_exists.mp h3
      simp only [PropertyDescriptor.is_data_descriptor,
        PropertyDescriptor.is_accessor_descriptor, h1, h2, hg3,
        Option.isNone_none, Option.isNone_some, Bool.and_self, Bool.not_true,
        Bool.false_and, Bool.not_false, if_false, if_true] at hc
      injection hc with h
      subst h
      exact Or.inr ⟨rfl, rfl, by simp, h4⟩

set_option maxHeartbeats 2000000 in
/-- Every property table produced by a successful run of
`validate_and_apply_property_descriptor` on a well-formed table (with a
well-formed `current`, when present) is well-formed: the creation paths
store full single-kind descriptors, the kind-conversion path stores a
full descriptor of the other kind before step 9 overwrites it with
`current`, and the merge path stores `current` itself. -/
theorem validate_and_apply_preserves_wf
    (target : Option PropertyKey) (ext : Bool) (desc : PropertyDescriptor)
    (cur? : Option PropertyDescriptor) (props : PropertyMap)
    (b : Bool) (props' : PropertyMap)
    (hwf : WfMap props)
    (hcur : ∀ c, cur? = some c → c.WfStored)
    (hrun : validate_and_apply_property_descriptor target ext desc cur? props
      = .ok (b, props')) :
    WfMap props' := by
  unfold validate_and_apply_property_descriptor at hrun
  iterate 14 (all_goals try split at hrun)
  all_goals try contradiction
  all_goals
    try (have hp := validate_accessor_get_check_props_eq _ _ _ _ _ hrun
         subst hp
         exact hwf)
  all_goals
    (injection hrun with h1
     injection h1 with hb hp
     subst hp)
  all_goals
    first
    | exact hwf
    | exact PropertyMap.WfMap_insert _ hwf (hcur _ rfl)
    | exact PropertyMap.WfMap_insert _ hwf (by
        simp [PropertyDescriptor.WfStored, PropertyDescriptor.isStoredData,
          PropertyDescriptor.isStoredAccessor])
    | exact PropertyMap.WfMap_insert _
        (PropertyMap.WfMap_insert _ hwf (by
          simp [PropertyDescriptor.WfStored, PropertyDescriptor.isStoredData,
            PropertyDescriptor.isStoredAccessor])) (hcur _ rfl)

/-- Claim C9: the ordinary DefineOwnProperty path (creation, kind
conversion, and the final write-back of
`validate_and_apply_property_descriptor`) preserves the invariant that
every stored descriptor is either a full data descriptor (value and
writable present, get and set absent) or a full accessor descriptor (get
and set present, value and writable absent) — never simultaneously data
and accessor. -/
theorem c9_storage_never_mixed_kind
    (rec : ObjectRecord) (p : PropertyKey) (desc : PropertyDescriptor)
    (b : Bool) (rec' : ObjectRecord)
    (hwf : WfMap rec.properties)
    (hrun : ordinary_define_own_property rec p desc = .ok (b, rec')) :
    WfMap rec'.properties := by
  unfold ordinary_define_own_property at hrun
  cases hv : validate_and_apply_property_descriptor (some p) rec.extensible desc
      (ordinary_get_own_property rec.properties p) rec.properties with
  | ok pr =>
    obtain ⟨b2, props'⟩ := pr
    rw [hv] at hrun
    injection hrun with h1
    injection h1 with hb hr
    have hwf' : WfMap props' :=
      validate_and_apply_preserves_wf (some p) rec.extensible desc
        (ordinary_get_own_property rec.properties p) rec.properties b2 props'
        hwf (ordinary_get_own_property_wf rec.properties p hwf) hv
    rw [← hr]
    exact hwf'
  | err e => rw [hv] at hrun; exact RunResult.noConfusion hrun
  | panicked => rw [hv] at hrun; exact RunResult.noConfusion hrun
  | diverged => rw [hv] at hrun; exact RunResult.noConfusion hrun
  | unmodeled => rw [hv] at hrun; exact RunResult.noConfusion hrun

/-- Witness for C9: defining a property on a fresh empty extensible
object stores a full data descriptor, a well-formed table. -/
theorem c9_witness :
    WfMap ([((.string "x" : PropertyKey),
      (⟨some .undefined, some false, none, none, some true, some true⟩
        : PropertyDescriptor))]) :=
  c9_storage_never_mixed_kind ⟨[], .null, true, true, false⟩ (.string "x")
    ⟨some .undefined, none, none, none, some true, some true⟩ true
    ⟨[(.string "x", ⟨some .undefined, some false, none, none, some true, some true⟩)],
     .null, true, true, false⟩
    (fun k d h => Option.noConfusion h) (by decide)

/-- Claim C8: if `n` prototype steps from `o` (each intermediate object
lacking an own property `p`) reach `q`, then `ordinary_get o p receiver`
behaves as `q`'s own descriptor dictates, with the receiver threaded
through unchanged: null-prototype miss at `q` gives Undefined; a data
descriptor gives its stored value; an accessor with undefined getter
gives Undefined; and an accessor with getter object `g` — any number of
levels up the chain — is invoked through `call` with this-value the
original `receiver` and no arguments. -/
theorem c8_get_receiver_threading
    (h : Heap) (cf : CallFn) (p : PropertyKey) (r : Value) :
    ∀ n o q rec fuel, n < fuel → reaches_no_own h p n o q → h.get q = some rec →
      ((rec.properties.get p = none ∧ rec.prototype = .null →
          ordinary_get h cf fuel o p r = .ok .undefined) ∧
       (∀ d v, rec.properties.get p = some d → d.is_data_descriptor = true →
          d.value = some v → ordinary_get h cf fuel o p r = .ok v) ∧
       (∀ d, rec.properties.get p = some d → d.is_data_descriptor = false →
          d.get = some GetSet.undefined →
          ordinary_get h cf fuel o p r = .ok .undefined) ∧
       (∀ d g, rec.properties.get p = some d → d.is_data_descriptor = false →
          d.get = some (GetSet.object g) →
          ordinary_get h cf fuel o p r = call h cf (.object g) r [])) := by
  intro n
  induction n with
  | zero =>
    intro o q rec fuel hfuel hreach hq
    have heq : o = q := hreach
    subst heq
    obtain ⟨f, rfl⟩ : ∃ f, fuel = f + 1 := ⟨fuel - 1, by omega⟩
    refine ⟨?_, ?_, ?_, ?_⟩
    · rintro ⟨hnone, hnull⟩
      have hproj : ordinary_get_own_property rec.properties p = none := by
        unfold ordinary_get_own_property
        rw [hnone]
      simp only [ordinary_get, hq, hproj, hnull]
    · intro d v hd hdata hv
      have hproj : ordinary_get_own_property rec.properties p
          = some ⟨d.value, d.writable, none, none, d.enumerable, d.configurable⟩ := by
        unfold ordinary_get_own_property
        rw [hd]
        simp [hdata]
      simp only [ordinary_get, hq, hproj]
      simp [PropertyDescriptor.is_data_descriptor, hv]
    · intro d hd hnd hg
      have hacc : d.is_accessor_descriptor = true := by
        simp [PropertyDescriptor.is_accessor_descriptor, hg]
      have hproj : ordinary_get_own_property rec.properties p
          = some ⟨none, none, d.get, d.set, d.enumerable, d.configurable⟩ := by
        unfold ordinary_get_own_property
        rw [hd]
        simp [hnd, hacc]
      simp only [ordinary_get, hq, hproj]
      simp [PropertyDescriptor.is_data_descriptor,
        PropertyDescriptor.is_accessor_descriptor, hg]
    · intro d g hd hnd hg
      have hacc : d.is_accessor_descriptor = true := by
        simp [PropertyDescriptor.is_accessor_descriptor, hg]
      have hproj : ordinary_get_own_property rec.properties p
          = some ⟨none, none, d.get, d.set, d.enumerable, d.configurable⟩ := by
        unfold ordinary_get_own_property
        rw [hd]
        simp [hnd, hacc]
      simp only [ordinary_get, hq, hproj]
      simp [PropertyDescriptor.is_data_descriptor,
        PropertyDescriptor.is_accessor_descriptor, hg]
  | succ n ih =>
    intro o q rec fuel hfuel hreach hq
    obtain ⟨rec0, ho, hnone, o2, hproto, hreach2⟩ := hreach
    obtain ⟨f, rfl⟩ : ∃ f, fuel = f + 1 := ⟨fuel - 1, by omega⟩
    have hproj : ordinary_get_own_property rec0.properties p = none := by
      unfold ordinary_get_own_property
      rw [hnone]
    have hstep : ordinary_get h cf (f + 1) o p r = ordinary_get h cf f o2 p r := by
      simp only [ordinary_get, ho, hproj, hproto]
    have ihx := ih o2 q rec f (by omega) hreach2 hq
    exact ⟨fun hx => by rw [hstep]; exact ihx.1 hx,
           fun d v h1 h2 h3 => by rw [hstep]; exact ihx.2.1 d v h1 h2 h3,
           fun d h1 h2 h3 => by rw [hstep]; exact ihx.2.2.1 d h1 h2 h3,
           fun d g h1 h2 h3 => by rw [hstep]; exact ihx.2.2.2 d g h1 h2 h3⟩

/-- Fixture for the C8 witness: object 0 → object 1 → object 2; the
property "k" lives only on object 2, as an accessor whose getter is the
callable object 9. -/
def c8_heap : Heap :=
  [(0, ⟨[], .object 1, true, true, false⟩),
   (1, ⟨[], .object 2, true, true, false⟩),
   (2, ⟨[(.string "k",
         ⟨none, none, some (.object 9), some .undefined, some true, some true⟩)],
       .null, true, true, false⟩),
   (9, ⟨[], .null, true, true, true⟩)]

/-- Fixture for the C8 witness: a call behaviour that returns its
this-value, making receiver threading observable. -/
def c8_callfn : CallFn := fun _ this _ => .ok this

/-- Witness for C8: reading "k" on object 0 with receiver object 0 walks
two prototype levels, invokes the getter with this-value object 0, and
returns it. -/
theorem c8_witness :
    ordinary_get c8_heap c8_callfn 5 0 (.string "k") (.object 0) = .ok (.object 0) := by
  have hth := (c8_get_receiver_threading c8_heap c8_callfn (.string "k") (.object 0)
      2 0 2
      ⟨[(.string "k",
         ⟨none, none, some (.object 9), some .undefined, some true, some true⟩)],
       .null, true, true, false⟩
      5 (by omega)
      ⟨⟨[], .object 1, true, true, false⟩, rfl, rfl, 1, rfl,
        ⟨⟨[], .object 2, true, true, false⟩, rfl, rfl, 2, rfl, rfl⟩⟩
      rfl).2.2.2
    ⟨none, none, some (.object 9), some .undefined, some true, some true⟩ 9 rfl rfl rfl
  rw [hth]
  rfl
